import Mathlib

/-!
A shallow embedding of the NRTaxSolutions backend (`src/backend/app`):
the data model (`models/models.py`), the CRUD layer (`crud/crud.py`) and
the request handlers (`routers/users.py`, `routers/tax_guides.py`,
`routers/faqs.py`, `routers/consultations.py`), together with theorems
settling the specification claims about premium gating, registration,
the premium upgrade and consultation ownership.

The relational store is modelled as insertion-ordered lists (SQLAlchemy's
`query(...).filter(...).first()` returns the first match in insertion
order; `offset`/`limit` become `drop`/`take`). Password hashing and
token-based identity resolution live in `app/core/auth.py`, which is not
part of the sources; the hash is an opaque function parameter and the
identity resolution is modelled from the spec (section 4.2).
-/

namespace NRTax

/-- User row, after class `User` in `app/models/models.py` (table `users`).
The `created_at` timestamp column is omitted: it is assigned by the store
and no claim depends on it. `is_active` and `is_premium` carry the column
defaults `True` and `False`. -/
structure User where
  id : Nat
  email : String
  hashed_password : String
  is_active : Bool
  is_premium : Bool
deriving Repr, DecidableEq

/-- TaxGuide row, after class `TaxGuide` in `app/models/models.py`
(timestamps omitted as for `User`). -/
structure TaxGuide where
  id : Nat
  title : String
  content : String
  is_premium : Bool
deriving Repr, DecidableEq

/-- Consultation row, after class `Consultation` in `app/models/models.py`. -/
structure Consultation where
  id : Nat
  user_id : Nat
  subject : String
  message : String
  status : String
deriving Repr, DecidableEq

/-- FAQ row, after class `FAQ` in `app/models/models.py`. -/
structure FAQ where
  id : Nat
  question : String
  answer : String
  category : String
  is_premium : Bool
deriving Repr, DecidableEq

/-- The durable store: one insertion-ordered list per table plus the
autoincrement counter each integer primary key provides. -/
structure DB where
  users : List User
  tax_guides : List TaxGuide
  consultations : List Consultation
  faqs : List FAQ
  next_user_id : Nat
  next_guide_id : Nat
  next_consultation_id : Nat
deriving Repr, DecidableEq

/-- Outcome of a request handler: a value, or an HTTP error carrying the
status code and detail string of the raised `HTTPException`. -/
inductive ApiResult (α : Type) where
  | ok : α → ApiResult α
  | error : Nat → String → ApiResult α
deriving Repr, DecidableEq

/-- Apply `f` to the first element satisfying `p`, leaving the rest alone:
the effect of mutating the object returned by `query.filter(...).first()`
and committing. -/
def updateFirstWhere (p : α → Bool) (f : α → α) : List α → List α
  | [] => []
  | x :: xs => if p x then f x :: xs else x :: updateFirstWhere p f xs

/-- The users table after a successful `update_user_premium`: the first
user whose email matches has its `is_premium` column rewritten to `b`. -/
def setPremiumUsers (e : String) (b : Bool) (l : List User) : List User :=
  updateFirstWhere (fun u => u.email == e)
    (fun u => { u with is_premium := b }) l

/-- The store after a successful `update_user_premium db e b`. -/
def setPremiumStore (db : DB) (e : String) (b : Bool) : DB :=
  { db with users := setPremiumUsers e b db.users }

namespace crud

/-- After `get_user_by_email` in `app/crud/crud.py`: first user whose
`email` column matches. -/
def get_user_by_email (db : DB) (email : String) : Option User :=
  db.users.find? (fun u => u.email == email)

/-- After `create_user` in `app/crud/crud.py`: hash the password, insert a
row carrying only `email` and `hashed_password`, so `is_active`/`is_premium`
take the column defaults `True`/`False` from `models.py`; return the
refreshed row. The hash `get_password_hash` (from `app/core/auth.py`, not
in the sources) is an opaque function parameter per the spec. -/
def create_user (get_password_hash : String → String) (db : DB)
    (email password : String) : User × DB :=
  let db_user : User :=
    { id := db.next_user_id
      email := email
      hashed_password := get_password_hash password
      is_active := true
      is_premium := false }
  (db_user,
    { db with
        users := db.users ++ [db_user]
        next_user_id := db.next_user_id + 1 })

/-- After `update_user_premium` in `app/crud/crud.py`: look the user up by
email and mutate its `is_premium` flag. When the lookup yields nothing the
Python code dereferences `None` (an `AttributeError`); that failure is
`none` here. -/
def update_user_premium (db : DB) (email : String) (is_premium : Bool) :
    Option (User × DB) :=
  match get_user_by_email db email with
  | none => none
  | some db_user =>
      some ({ db_user with is_premium := is_premium },
        setPremiumStore db email is_premium)

/-- After `get_tax_guides` in `app/crud/crud.py`: when `premium_only` is
set the query keeps only rows with `is_premium == True`; otherwise no
filter is applied at all. Then `offset(skip).limit(limit)`. -/
def get_tax_guides (db : DB) (skip limit : Nat) (premium_only : Bool) :
    List TaxGuide :=
  let query :=
    if premium_only then db.tax_guides.filter (fun g => g.is_premium)
    else db.tax_guides
  (query.drop skip).take limit

/-- After `get_tax_guide` in `app/crud/crud.py`. -/
def get_tax_guide (db : DB) (guide_id : Nat) : Option TaxGuide :=
  db.tax_guides.find? (fun g => g.id == guide_id)

/-- After `create_consultation` in `app/crud/crud.py`: insert a row with
the given owner `user_id`; `status` takes the column default `pending`. -/
def create_consultation (db : DB) (subject message : String) (user_id : Nat) :
    Consultation × DB :=
  let db_consultation : Consultation :=
    { id := db.next_consultation_id
      user_id := user_id
      subject := subject
      message := message
      status := "pending" }
  (db_consultation,
    { db with
        consultations := db.consultations ++ [db_consultation]
        next_consultation_id := db.next_consultation_id + 1 })

/-- After `get_user_consultations` in `app/crud/crud.py`. -/
def get_user_consultations (db : DB) (user_id : Nat) : List Consultation :=
  db.consultations.filter (fun c => c.user_id == user_id)

/-- After `get_faqs` in `app/crud/crud.py`: same shape as `get_tax_guides`. -/
def get_faqs (db : DB) (skip limit : Nat) (premium_only : Bool) : List FAQ :=
  let query :=
    if premium_only then db.faqs.filter (fun f => f.is_premium)
    else db.faqs
  (query.drop skip).take limit

/-- After `get_faq_by_category` in `app/crud/crud.py`: every FAQ of the
category, with no premium filtering anywhere on this path. -/
def get_faq_by_category (db : DB) (category : String) : List FAQ :=
  db.faqs.filter (fun f => f.category == category)

end crud

namespace routers

/-- Truth value of the Python guard `current_user and current_user.is_premium`
used by the list handlers and `read_tax_guide`. -/
def callerIsPremium : Option User → Bool
  | some u => u.is_premium
  | none => false

/-- After `read_tax_guides` in `app/routers/tax_guides.py`: sets
`premium_only` to whether the caller is premium and forwards to the CRUD
query. -/
def read_tax_guides (db : DB) (skip limit : Nat) (current_user : Option User) :
    List TaxGuide :=
  crud.get_tax_guides db skip limit (callerIsPremium current_user)

/-- After `read_tax_guide` in `app/routers/tax_guides.py`: 404 when the id
is absent, 403 when the guide is premium and the caller is not, otherwise
the guide itself. -/
def read_tax_guide (db : DB) (guide_id : Nat) (current_user : Option User) :
    ApiResult TaxGuide :=
  match crud.get_tax_guide db guide_id with
  | none => ApiResult.error 404 "Tax guide not found"
  | some db_guide =>
      if db_guide.is_premium && !callerIsPremium current_user then
        ApiResult.error 403 "Premium content requires subscription"
      else ApiResult.ok db_guide

/-- After `read_faqs` in `app/routers/faqs.py`: same shape as
`read_tax_guides`. -/
def read_faqs (db : DB) (skip limit : Nat) (current_user : Option User) :
    List FAQ :=
  crud.get_faqs db skip limit (callerIsPremium current_user)

/-- After `read_faq_by_category` in `app/routers/faqs.py`: forwards to the
CRUD query with no identity and no gating. -/
def read_faq_by_category (db : DB) (category : String) : List FAQ :=
  crud.get_faq_by_category db category

/-- After `create_user` in `app/routers/users.py`: reject with 400 when the
email is already registered, otherwise insert through the CRUD layer. -/
def create_user (get_password_hash : String → String) (db : DB)
    (email password : String) : ApiResult User × DB :=
  match crud.get_user_by_email db email with
  | some _ => (ApiResult.error 400 "Email already registered", db)
  | none =>
      let r := crud.create_user get_password_hash db email password
      (ApiResult.ok r.1, r.2)

/-- After `upgrade_to_premium` in `app/routers/users.py`: unconditionally
set the caller's `is_premium` to `True` through the CRUD layer. The `none`
branch is the Python `AttributeError` escaping as a server error. -/
def upgrade_to_premium (db : DB) (current_user : User) : ApiResult User × DB :=
  match crud.update_user_premium db current_user.email true with
  | none => (ApiResult.error 500 "AttributeError", db)
  | some r => (ApiResult.ok r.1, r.2)

/-- After `create_consultation` in `app/routers/consultations.py`: the
owner of the new row is the authenticated caller. -/
def create_consultation (db : DB) (subject message : String)
    (current_user : User) : Consultation × DB :=
  crud.create_consultation db subject message current_user.id

/-- After `read_user_consultations` in `app/routers/consultations.py`. -/
def read_user_consultations (db : DB) (current_user : User) :
    List Consultation :=
  crud.get_user_consultations db current_user.id

end routers

/-- Modelled from the spec: `get_current_active_user` lives in
`app/core/auth.py`, which is not among the sources. Per spec section 4.2,
a verified token carries the subject email, the caller's flags are
re-resolved from the Credential Store on every request, and an inactive
user is treated as if authentication failed. -/
def get_current_active_user (db : DB) (email : String) : Option User :=
  match crud.get_user_by_email db email with
  | some u => if u.is_active then some u else none
  | none => none

/-- Concrete active, non-premium registered user for witnesses. -/
def sampleUser : User :=
  { id := 1
    email := "a@x.com"
    hashed_password := "opaque-hash-1"
    is_active := true
    is_premium := false }

/-- Concrete premium caller for witnesses. -/
def premiumUser : User :=
  { id := 2
    email := "p@x.com"
    hashed_password := "opaque-hash-2"
    is_active := true
    is_premium := true }

/-- Free guide, after the first seed row of `main.py`. -/
def freeGuide : TaxGuide :=
  { id := 1
    title := "US-China Tax Treaty Overview"
    content := "The United States and China have a tax treaty."
    is_premium := false }

/-- Free guide, after the second seed row of `main.py`. -/
def studentGuide : TaxGuide :=
  { id := 2
    title := "Form 1040-NR Guide for International Students"
    content := "Most international students file Form 1040-NR."
    is_premium := false }

/-- Premium guide, after the fourth seed row of `main.py`. -/
def premiumGuide : TaxGuide :=
  { id := 3
    title := "Advanced Tax Planning for Non-Residents"
    content := "This premium guide covers advanced strategies."
    is_premium := true }

/-- Free FAQ, after the first seed FAQ of `main.py`. -/
def filingFaq : FAQ :=
  { id := 1
    question := "Do I need to file a US tax return?"
    answer := "Yes, most international students file at least one form."
    category := "Filing Requirements"
    is_premium := false }

/-- Premium FAQ, after the fourth seed FAQ of `main.py`. -/
def premiumFaq : FAQ :=
  { id := 2
    question := "What tax deductions can international students claim?"
    answer := "As a non-resident you may be eligible for some deductions."
    category := "Deductions"
    is_premium := true }

/-- The category string of the premium seed FAQ. -/
def deductionsCategory : String := "Deductions"

/-- The email of `sampleUser`. -/
def emailA : String := "a@x.com"

/-- An email registered by no user of `sampleDB`. -/
def emailB : String := "b@y.com"

/-- Concrete store for witnesses: one registered non-premium user, free and
premium guides, free and premium FAQs. -/
def sampleDB : DB :=
  { users := [sampleUser]
    tax_guides := [freeGuide, studentGuide, premiumGuide]
    consultations := []
    faqs := [filingFaq, premiumFaq]
    next_user_id := 3
    next_guide_id := 4
    next_consultation_id := 1 }

/-- A concrete opaque hash for witnesses. -/
def sampleHash (s : String) : String := "h:" ++ s

/-- A concrete raw password for witnesses. -/
def pwA : String := "secret-1"

/-- Updating the first match moves `find?` across `f`, provided `f`
preserves the predicate. -/
theorem find?_updateFirstWhere (p : α → Bool) (f : α → α)
    (hpf : ∀ a, p (f a) = p a) (l : List α) :
    (updateFirstWhere p f l).find? p = (l.find? p).map f := by
  induction l with
  | nil => simp [updateFirstWhere]
  | cons x xs ih =>
      by_cases hp : p x
      · simp [updateFirstWhere, hp, List.find?_cons_of_pos, hpf x]
      · simp [updateFirstWhere, hp, List.find?_cons_of_neg, ih]

/-- Updating the first match twice is the same as once, provided `f` is
idempotent and preserves the predicate. -/
theorem updateFirstWhere_idem (p : α → Bool) (f : α → α)
    (hpf : ∀ a, p (f a) = p a) (hff : ∀ a, f (f a) = f a) (l : List α) :
    updateFirstWhere p f (updateFirstWhere p f l) = updateFirstWhere p f l := by
  induction l with
  | nil => rfl
  | cons x xs ih =>
      by_cases hp : p x
      · simp [updateFirstWhere, hp, hpf, hff]
      · simp [updateFirstWhere, hp, ih]

/-- Shape of `update_user_premium` when the lookup succeeds. -/
theorem update_user_premium_eq_of_found (db : DB) (e : String) (b : Bool)
    (u : User) (h : crud.get_user_by_email db e = some u) :
    crud.update_user_premium db e b =
      some ({ u with is_premium := b }, setPremiumStore db e b) := by
  unfold crud.update_user_premium
  rw [h]

/-- Looking the user up again after `update_user_premium` finds the row
with the flag rewritten. -/
theorem get_user_by_email_after_update (db : DB) (e : String) (b : Bool) :
    crud.get_user_by_email (setPremiumStore db e b) e =
      (crud.get_user_by_email db e).map (fun v => { v with is_premium := b }) := by
  unfold crud.get_user_by_email setPremiumStore setPremiumUsers
  exact find?_updateFirstWhere (fun v => v.email == e)
    (fun v => { v with is_premium := b }) (fun a => rfl) db.users

/-- Rewriting the flag of the first match is idempotent at the table level. -/
theorem setPremiumUsers_idem (e : String) (b : Bool) (l : List User) :
    setPremiumUsers e b (setPremiumUsers e b l) = setPremiumUsers e b l := by
  unfold setPremiumUsers
  exact updateFirstWhere_idem (fun u : User => u.email == e)
    (fun u : User => { u with is_premium := b }) (fun a => rfl) (fun a => rfl) l

/-- Rewriting the flag of the first match is idempotent at the store level. -/
theorem setPremiumStore_idem (db : DB) (e : String) (b : Bool) :
    setPremiumStore (setPremiumStore db e b) e b = setPremiumStore db e b :=
  congrArg (fun l => { db with users := l }) (setPremiumUsers_idem e b db.users)

/-- C1: the spec invariant — a premium resource is never returned in full
to a caller without a premium identity — fails on the code: the anonymous
list fetches of guides and FAQs and the category fetch of FAQs all return
the premium rows in full, because `premium_only = False` applies no filter
at all and `read_faq_by_category` has no gate. -/
theorem premium_content_leaks_to_anonymous :
    premiumGuide.is_premium = true
    ∧ premiumGuide ∈ routers.read_tax_guides sampleDB 0 100 none
    ∧ premiumFaq.is_premium = true
    ∧ premiumFaq ∈ routers.read_faqs sampleDB 0 100 none
    ∧ premiumFaq ∈ routers.read_faq_by_category sampleDB deductionsCategory := by
  decide

/-- C2: the claimed list-filter semantics fail on the code: the anonymous
caller receives the full table including the premium guide, and the
premium caller receives only the premium subset, the non-premium guides
being excluded. -/
theorem list_filter_is_inverted :
    routers.read_tax_guides sampleDB 0 100 none
      = [freeGuide, studentGuide, premiumGuide]
    ∧ routers.read_tax_guides sampleDB 0 100 (some premiumUser)
      = [premiumGuide] := by
  decide

/-- Unpacking a successful identity resolution: the user was found by
email, is active, and carries the looked-up email. -/
theorem get_current_active_user_eq_some (db : DB) (e : String) (u : User)
    (h : get_current_active_user db e = some u) :
    crud.get_user_by_email db e = some u ∧ u.is_active = true ∧ u.email = e := by
  unfold get_current_active_user at h
  cases hfind : crud.get_user_by_email db e with
  | none => rw [hfind] at h; simp at h
  | some v =>
      rw [hfind] at h
      by_cases ha : v.is_active
      · simp only [ha, if_true, Option.some.injEq] at h
        subst h
        refine ⟨rfl, ha, ?_⟩
        have hb : (fun w : User => w.email == e) v = true :=
          List.find?_some (p := fun w : User => w.email == e) hfind
        exact eq_of_beq hb
      · simp [ha] at h

/-- C3: the single fetch `GET /tax-guides/{id}` answers 404 exactly when no
guide has the id, answers 403 — an error distinct from 404 — exactly when
the guide exists, is premium, and the caller is absent or not premium, and
otherwise returns the guide in full. -/
theorem read_tax_guide_error_model (db : DB) (gid : Nat) (cu : Option User) :
    (routers.read_tax_guide db gid cu = ApiResult.error 404 "Tax guide not found"
        ↔ crud.get_tax_guide db gid = none)
    ∧ (routers.read_tax_guide db gid cu
          = ApiResult.error 403 "Premium content requires subscription"
        ↔ ∃ g, crud.get_tax_guide db gid = some g ∧ g.is_premium = true
            ∧ routers.callerIsPremium cu = false)
    ∧ (∀ g, crud.get_tax_guide db gid = some g →
        (g.is_premium = false ∨ routers.callerIsPremium cu = true) →
        routers.read_tax_guide db gid cu = ApiResult.ok g) := by
  unfold routers.read_tax_guide
  cases hfind : crud.get_tax_guide db gid with
  | none => simp
  | some g =>
      simp only [hfind, Option.some.injEq]
      by_cases hp : g.is_premium
      · by_cases hcp : routers.callerIsPremium cu
        · simp [hp, hcp]
        · simp [hp, hcp]
      · simp [hp]

/-- Witness for C3: the free guide of the sample store is returned in full
to an anonymous caller. -/
theorem read_tax_guide_error_model_witness :
    routers.read_tax_guide sampleDB 1 none = ApiResult.ok freeGuide :=
  (read_tax_guide_error_model sampleDB 1 none).2.2 freeGuide (by decide)
    (Or.inl (by decide))

/-- C4: a logged-in, active, non-premium user is answered 403 on a premium
guide; after `POST /users/me/premium/` the re-resolved identity is premium
and the same fetch returns the guide in full. -/
theorem premium_upgrade_unlocks_guide (db : DB) (e : String) (gid : Nat)
    (u : User) (g : TaxGuide)
    (hu : get_current_active_user db e = some u)
    (hnp : u.is_premium = false)
    (hg : crud.get_tax_guide db gid = some g)
    (hp : g.is_premium = true) :
    routers.read_tax_guide db gid (get_current_active_user db e)
        = ApiResult.error 403 "Premium content requires subscription"
    ∧ ∃ u2 db2,
        routers.upgrade_to_premium db u = (ApiResult.ok u2, db2)
        ∧ get_current_active_user db2 e = some u2
        ∧ u2.is_premium = true
        ∧ routers.read_tax_guide db2 gid (get_current_active_user db2 e)
            = ApiResult.ok g := by
  obtain ⟨hfind, hact, hemail⟩ := get_current_active_user_eq_some db e u hu
  have hupd := update_user_premium_eq_of_found db e true u hfind
  have hcau2 : get_current_active_user (setPremiumStore db e true) e
      = some { u with is_premium := true } := by
    unfold get_current_active_user
    rw [get_user_by_email_after_update db e true, hfind]
    simp [hact]
  constructor
  · rw [hu]
    unfold routers.read_tax_guide
    rw [hg]
    simp [routers.callerIsPremium, hp, hnp]
  · refine ⟨{ u with is_premium := true }, setPremiumStore db e true,
      ?_, hcau2, rfl, ?_⟩
    · unfold routers.upgrade_to_premium
      have hupd2 : crud.update_user_premium db u.email true =
          some ({ u with is_premium := true }, setPremiumStore db e true) := by
        nth_rewrite 1 [hemail]
        exact hupd
      rw [hupd2]
    · rw [hcau2]
      unfold routers.read_tax_guide
      have hg2 : crud.get_tax_guide (setPremiumStore db e true) gid = some g := hg
      rw [hg2]
      simp [routers.callerIsPremium, hp]

/-- Witness for C4: the sample user, non-premium at first, is refused the
premium guide, then upgraded and served it. -/
theorem premium_upgrade_unlocks_guide_witness :
    routers.read_tax_guide sampleDB 3 (get_current_active_user sampleDB emailA)
        = ApiResult.error 403 "Premium content requires subscription"
    ∧ ∃ u2 db2,
        routers.upgrade_to_premium sampleDB sampleUser = (ApiResult.ok u2, db2)
        ∧ get_current_active_user db2 emailA = some u2
        ∧ u2.is_premium = true
        ∧ routers.read_tax_guide db2 3 (get_current_active_user db2 emailA)
            = ApiResult.ok premiumGuide :=
  premium_upgrade_unlocks_guide sampleDB emailA 3 sampleUser premiumGuide
    (by decide) (by decide) (by decide) (by decide)

/-- The freshly inserted user is found by its email when that email was
free before the insert. -/
theorem get_user_by_email_after_insert (gph : String → String) (db : DB)
    (e p : String) (h : crud.get_user_by_email db e = none) :
    crud.get_user_by_email (crud.create_user gph db e p).2 e
      = some (crud.create_user gph db e p).1 := by
  unfold crud.get_user_by_email at h ⊢
  unfold crud.create_user
  simp [List.find?_append, h]

/-- C5: registering a fresh email succeeds and persists the user; the
second registration of the same email is rejected with the 400
duplicate-email error, with the store returned untouched, because the
uniqueness check runs before the insert. -/
theorem duplicate_registration_rejected (gph : String → String) (db : DB)
    (e p1 p2 : String) (h : crud.get_user_by_email db e = none) :
    ∃ u1 db1,
      routers.create_user gph db e p1 = (ApiResult.ok u1, db1)
      ∧ crud.get_user_by_email db1 e = some u1
      ∧ routers.create_user gph db1 e p2
          = (ApiResult.error 400 "Email already registered", db1) := by
  refine ⟨(crud.create_user gph db e p1).1, (crud.create_user gph db e p1).2,
    ?_, get_user_by_email_after_insert gph db e p1 h, ?_⟩
  · unfold routers.create_user
    rw [h]
  · unfold routers.create_user
    rw [get_user_by_email_after_insert gph db e p1 h]

/-- Witness for C5: registering a fresh email on the sample store, then
registering it again. -/
theorem duplicate_registration_rejected_witness :
    ∃ u1 db1,
      routers.create_user sampleHash sampleDB emailB pwA = (ApiResult.ok u1, db1)
      ∧ crud.get_user_by_email db1 emailB = some u1
      ∧ routers.create_user sampleHash db1 emailB pwA
          = (ApiResult.error 400 "Email already registered", db1) :=
  duplicate_registration_rejected sampleHash sampleDB emailB pwA pwA (by decide)

/-- C6: the persisted user's stored credential is exactly the opaque
one-way hash of the raw password, the row is persisted, and — whenever the
hash output and the email differ from the raw password — no string field
of the row carries the plaintext. -/
theorem registration_hashes_password (gph : String → String) (db : DB)
    (e p : String) (hne : e ≠ p) (hhash : gph p ≠ p) :
    (crud.create_user gph db e p).1.hashed_password = gph p
    ∧ (crud.create_user gph db e p).1 ∈ (crud.create_user gph db e p).2.users
    ∧ (crud.create_user gph db e p).1.email ≠ p
    ∧ (crud.create_user gph db e p).1.hashed_password ≠ p := by
  refine ⟨rfl, ?_, hne, hhash⟩
  unfold crud.create_user
  simp

/-- Witness for C6: a concrete registration through the sample hash. -/
theorem registration_hashes_password_witness :
    (crud.create_user sampleHash sampleDB emailB pwA).1.hashed_password
        = sampleHash pwA
    ∧ (crud.create_user sampleHash sampleDB emailB pwA).1
        ∈ (crud.create_user sampleHash sampleDB emailB pwA).2.users
    ∧ (crud.create_user sampleHash sampleDB emailB pwA).1.email ≠ pwA
    ∧ (crud.create_user sampleHash sampleDB emailB pwA).1.hashed_password ≠ pwA :=
  registration_hashes_password sampleHash sampleDB emailB pwA
    (by decide) (by decide)

/-- C7: for an existing user, `update_user_premium` applied twice returns
the same row and the same store as applied once, and the premium upgrade
endpoint sets `is_premium` to `true` unconditionally, whatever its prior
value. -/
theorem set_premium_idempotent (db : DB) (e : String) (b : Bool) (u : User)
    (h : crud.get_user_by_email db e = some u) :
    crud.update_user_premium db e b
        = some ({ u with is_premium := b }, setPremiumStore db e b)
    ∧ crud.update_user_premium (setPremiumStore db e b) e b
        = some ({ u with is_premium := b }, setPremiumStore db e b)
    ∧ ∀ cu : User, cu.email = e →
        routers.upgrade_to_premium db cu
          = (ApiResult.ok { u with is_premium := true },
              setPremiumStore db e true) := by
  have h2 : crud.get_user_by_email (setPremiumStore db e b) e
      = some { u with is_premium := b } := by
    rw [get_user_by_email_after_update, h]
    rfl
  refine ⟨update_user_premium_eq_of_found db e b u h, ?_, ?_⟩
  · rw [update_user_premium_eq_of_found (setPremiumStore db e b) e b
      { u with is_premium := b } h2, setPremiumStore_idem]
  · intro cu hcu
    unfold routers.upgrade_to_premium
    have h4 : crud.update_user_premium db cu.email true
        = some ({ u with is_premium := true }, setPremiumStore db e true) := by
      rw [hcu]
      exact update_user_premium_eq_of_found db e true u h
    rw [h4]

/-- Witness for C7: the sample user upgraded twice ends exactly where one
upgrade puts it, and the endpoint answers with a premium row. -/
theorem set_premium_idempotent_witness :
    crud.update_user_premium sampleDB emailA true
        = some ({ sampleUser with is_premium := true },
            setPremiumStore sampleDB emailA true)
    ∧ crud.update_user_premium (setPremiumStore sampleDB emailA true) emailA true
        = some ({ sampleUser with is_premium := true },
            setPremiumStore sampleDB emailA true)
    ∧ routers.upgrade_to_premium sampleDB sampleUser
        = (ApiResult.ok { sampleUser with is_premium := true },
            setPremiumStore sampleDB emailA true) := by
  have h := set_premium_idempotent sampleDB emailA true sampleUser (by decide)
  exact ⟨h.1, h.2.1, h.2.2 sampleUser rfl⟩

/-- C8: a consultation created through the endpoint is owned by the
authenticated caller and persisted, and the list endpoint returns exactly
the stored consultations whose `user_id` is the caller's id. -/
theorem consultation_ownership (db : DB) (s m : String) (cu : User) :
    (routers.create_consultation db s m cu).1.user_id = cu.id
    ∧ (routers.create_consultation db s m cu).1
        ∈ (routers.create_consultation db s m cu).2.consultations
    ∧ ∀ c : Consultation,
        (c ∈ routers.read_user_consultations db cu
          ↔ c ∈ db.consultations ∧ c.user_id = cu.id) := by
  refine ⟨rfl, ?_, ?_⟩
  · unfold routers.create_consultation crud.create_consultation
    simp
  · intro c
    unfold routers.read_user_consultations crud.get_user_consultations
    simp [List.mem_filter]

/-- C9: `update_user_premium` fails (the Python `AttributeError` on the
missing row, `none` here) exactly when no user carries the email; whenever
one does, the error branch is unreachable and a row is returned. -/
theorem update_premium_requires_existing_user (db : DB) (e : String) (b : Bool) :
    (crud.get_user_by_email db e = none → crud.update_user_premium db e b = none)
    ∧ (∀ u : User, crud.get_user_by_email db e = some u →
        crud.update_user_premium db e b
          = some ({ u with is_premium := b }, setPremiumStore db e b)) := by
  constructor
  · intro h
    unfold crud.update_user_premium
    rw [h]
  · intro u h
    exact update_user_premium_eq_of_found db e b u h

/-- Witness for C9: no user of the sample store carries the fresh email,
so the update fails. -/
theorem update_premium_requires_existing_user_witness :
    crud.update_user_premium sampleDB emailB true = none :=
  (update_premium_requires_existing_user sampleDB emailB true).1 (by decide)

/-- C10: every user created through registration starts with the column
defaults `is_active = true` and `is_premium = false`, and is persisted. -/
theorem registration_default_flags (gph : String → String) (db : DB)
    (e p : String) :
    (crud.create_user gph db e p).1.is_active = true
    ∧ (crud.create_user gph db e p).1.is_premium = false
    ∧ (crud.create_user gph db e p).1 ∈ (crud.create_user gph db e p).2.users := by
  refine ⟨rfl, rfl, ?_⟩
  unfold crud.create_user
  simp

end NRTax
